import Mathlib

deriving instance DecidableEq for Except

/-!
Verification development for the xbsky embed normalizer (main.go).

The Go source is shallowly embedded: JSON-decoded API payloads become plain
structures, the normalization switch in `getPost` (main.go lines 766-970)
becomes `dispatchEmbed`, the kind post-processing switch (lines 972-1040)
becomes `postProcessKind`, the quote/reply description appending
(lines 1044-1079) becomes `appendQuote`/`appendReply`, the handle
resolution chain (lines 320-419) becomes `resolveHandleT`, and the mosaic
generator (lines 1147-1189) becomes `genMosaic`.

External collaborators (HTTP fetches, DNS, Go's `net/url.Parse`, the PLC
directory) are modelled as explicit inputs: an `Except Unit _` value stands
for a network call's outcome, an `Option goURL` for a `url.Parse` result,
and a `plcDirectory` for a directory-document fetch result.
-/

/-- Aspect ratio as decoded from the API (`apiAspectRatio` in main.go).
Go int64 values are modelled as `Int`. -/
structure apiAspectRatio where
  width : Int
  height : Int
deriving Repr, DecidableEq

/-- One entry of an image list (`apiImages` element in main.go). -/
structure apiImage where
  fullSize : String
  alt : String
  aspectRatio : apiAspectRatio
deriving Repr, DecidableEq

/-- `apiImages` in main.go. -/
abbrev apiImages := List apiImage

/-- `apiAuthor` in main.go. -/
structure apiAuthor where
  did : String
  handle : String
  displayName : String
  avatar : String
deriving Repr, DecidableEq

/-- `apiExternal` in main.go. -/
structure apiExternal where
  uri : String
  title : String
  description : String
  thumb : String
deriving Repr, DecidableEq

/-- `mediaData` in main.go. -/
structure mediaData where
  type : String
  images : apiImages
  external : apiExternal
  cid : String
  thumbnail : String
  aspectRatio : apiAspectRatio
deriving Repr, DecidableEq

/-- The `Record` struct nested inside a quoted record's embed entry
(`Embeds[i].Record` in main.go): holds starter-pack / list / feed data. -/
structure nestedEmbedRecord where
  type : String
  uri : String
  /-- `Record.Record.Name` / `Record.Record.Description`, for starter packs. -/
  recName : String
  recDescription : String
  displayName : String
  purpose : String
  name : String
  avatar : String
  description : String
  creator : apiAuthor
deriving Repr, DecidableEq

/-- One entry of `Embed.Record.Embeds` in main.go. The Go struct embeds
`mediaData` (promoted fields, accessed as `theEmbed.Type` etc.), carries a
separate `Media mediaData`, and a nested `Record`. -/
structure nestedEmbed where
  /-- the promoted (embedded) `mediaData` fields -/
  own : mediaData
  media : mediaData
  record : nestedEmbedRecord
deriving Repr, DecidableEq

/-- `Embed.Record.Record` in main.go: the quoted record inside a
quote-with-media embed (value text, author), also starter-pack name and
description. -/
structure quotedInnerRecord where
  valueText : String
  author : apiAuthor
  name : String
  description : String
deriving Repr, DecidableEq

/-- `Embed.Record` in main.go: the text-quote record. -/
structure embedRecord where
  type : String
  uri : String
  record : quotedInnerRecord
  valueText : String
  author : apiAuthor
  embeds : List nestedEmbed
  displayName : String
  purpose : String
  name : String
  avatar : String
  description : String
  creator : apiAuthor
deriving Repr, DecidableEq

/-- `apiPost.Embed` in main.go. -/
structure postEmbed where
  type : String
  media : mediaData
  external : apiExternal
  record : embedRecord
  images : apiImages
  cid : String
  thumbnail : String
  aspectRatio : apiAspectRatio
deriving Repr, DecidableEq

/-- `apiPost.Record` in main.go. -/
structure postRecord where
  text : String
  createdAt : String
deriving Repr, DecidableEq

/-- `apiPost` in main.go. -/
structure apiPost where
  author : apiAuthor
  record : postRecord
  embed : postEmbed
  replyCount : Int
  repostCount : Int
  likeCount : Int
  quoteCount : Int
deriving Repr, DecidableEq

/-- `apiThread` in main.go: the main post plus an optional parent
(`Parent` is a nil-able pointer wrapping a post). -/
structure apiThread where
  post : apiPost
  parent : Option apiPost
deriving Repr, DecidableEq

/-- `ownData.CommonEmbeds` in main.go. -/
structure commonEmbedsData where
  purpose : String
  name : String
  avatar : String
  description : String
  creator : apiAuthor
deriving Repr, DecidableEq

/-- `ownData` in main.go (the canonical record handed to the template).
`StatsForTG` and `VideoHelper` are omitted: the former is a float-formatted
counters string, the latter is only filled on the JSON diagnostic path;
neither takes part in normalization. -/
structure ownData where
  type : String
  author : apiAuthor
  record : postRecord
  images : apiImages
  external : apiExternal
  pds : String
  videoCID : String
  videoDID : String
  description : String
  thumbnail : String
  aspectRatio : apiAspectRatio
  replyCount : Int
  repostCount : Int
  likeCount : Int
  quoteCount : Int
  isVideo : Bool
  isGif : Bool
  commonEmbeds : commonEmbedsData
deriving Repr, DecidableEq

/-- Embed type tag constants from main.go lines 291-303. -/
def bskyEmbedImages : String := "app.bsky.embed.images#view"

def bskyEmbedExternal : String := "app.bsky.embed.external#view"

def bskyEmbedVideo : String := "app.bsky.embed.video#view"

def bskyEmbedQuote : String := "app.bsky.embed.recordWithMedia#view"

def bskyEmbedText : String := "app.bsky.embed.record#view"

def bskyEmbedTextQuote : String := "app.bsky.embed.record#viewRecord"

def bskyEmbedList : String := "app.bsky.graph.defs#listView"

def bskyEmbedFeed : String := "app.bsky.feed.defs#generatorView"

def bskyEmbedPack : String := "app.bsky.graph.defs#starterPackViewBasic"

def unknownType : String := "unknownType"

def modList : String := "app.bsky.graph.defs#modlist"

def curateList : String := "app.bsky.graph.defs#curatelist"

/-- Zero value of `apiAspectRatio` (Go zero struct). -/
def zeroAR : apiAspectRatio := ⟨0, 0⟩

/-- Zero value of `apiExternal` (Go zero struct). -/
def zeroExternal : apiExternal := ⟨"", "", "", ""⟩

/-- Zero value of `apiAuthor` (Go zero struct). -/
def zeroAuthor : apiAuthor := ⟨"", "", "", ""⟩

/-- Zero value of `commonEmbedsData` (Go zero struct). -/
def zeroCommon : commonEmbedsData := ⟨"", "", "", "", zeroAuthor⟩

/-- Go's `strings.HasPrefix`. -/
def goHasPrefix (s pre : String) : Bool :=
  pre.data.isPrefixOf s.data

/-- Go's `strings.TrimPrefix`: drop `pre` when `s` starts with it. -/
def goTrimPfx (s pre : String) : String :=
  if goHasPrefix s pre then String.mk (s.data.drop pre.data.length) else s

/-- Go's `strings.Cut(s, sep)`: split around the first instance of `sep`;
`none` when `sep` does not occur (the `found` flag is false). -/
def goCut (s sep : String) : Option (String × String) :=
  match s.splitOn sep with
  | [] => none
  | [_] => none
  | before :: rest => some (before, String.intercalate sep rest)

/-- Starter-pack card URL construction (main.go lines 856-859, 886-889,
951-954): keep the previous avatar unless the URI contains the marker. -/
def packAvatar (uri did oldAvatar : String) : String :=
  match goCut uri "app.bsky.graph.starterpack/" with
  | some (_, packID) => "https://ogcard.cdn.bsky.app/start/" ++ did ++ "/" ++ packID
  | none => oldAvatar

/-- main.go lines 743-763: the `selfData` fields set before the embed
dispatch. `aka` is the `alsoKnownAs` list of the PLC directory document
fetched for the author (external collaborator). -/
def initSelf (thread : apiThread) (aka : List String) : ownData :=
  let author0 := thread.post.author
  let author :=
    match aka with
    | [] => author0
    | a :: _ =>
      let h := goTrimPfx a "at://"
      { author0 with
        handle := h
        displayName := if author0.displayName = "" then h else author0.displayName }
  { type := ""
    author := author
    record := thread.post.record
    images := []
    external := zeroExternal
    pds := "https://bsky.social"
    videoCID := ""
    videoDID := ""
    description := thread.post.record.text
    thumbnail := ""
    aspectRatio := zeroAR
    replyCount := thread.post.replyCount
    repostCount := thread.post.repostCount
    likeCount := thread.post.likeCount
    quoteCount := thread.post.quoteCount
    isVideo := false
    isGif := false
    commonEmbeds := zeroCommon }

/-- The `Record.Type` sub-dispatch shared by the text-quote branches
(main.go lines 842-868, 871-898, 936-963): list / starter pack / feed,
otherwise unknown. The fields are read off an `embedRecord`. -/
def dispatchRecordKind (rec : embedRecord) (self : ownData) : ownData :=
  if rec.type = bskyEmbedList then
    { self with
      type := bskyEmbedList
      commonEmbeds :=
        { self.commonEmbeds with
          name := rec.name, avatar := rec.avatar, description := rec.description
          purpose := rec.purpose, creator := rec.creator } }
  else if rec.type = bskyEmbedPack then
    { self with
      type := bskyEmbedPack
      commonEmbeds :=
        { self.commonEmbeds with
          name := rec.record.name
          avatar := packAvatar rec.uri rec.creator.did self.commonEmbeds.avatar
          description := rec.record.description, creator := rec.creator } }
  else if rec.type = bskyEmbedFeed then
    { self with
      type := bskyEmbedFeed
      commonEmbeds :=
        { self.commonEmbeds with
          name := rec.displayName, avatar := rec.avatar, description := rec.description
          creator := rec.creator } }
  else
    { self with type := unknownType }

/-- The `Record.Type` sub-dispatch for a nested embed's record
(main.go lines 842-868): same shape as `dispatchRecordKind` but reading a
`nestedEmbedRecord`. -/
def dispatchNestedRecordKind (rec : nestedEmbedRecord) (self : ownData) : ownData :=
  if rec.type = bskyEmbedList then
    { self with
      type := bskyEmbedList
      commonEmbeds :=
        { self.commonEmbeds with
          name := rec.name, avatar := rec.avatar, description := rec.description
          purpose := rec.purpose, creator := rec.creator } }
  else if rec.type = bskyEmbedPack then
    { self with
      type := bskyEmbedPack
      commonEmbeds :=
        { self.commonEmbeds with
          name := rec.recName
          avatar := packAvatar rec.uri rec.creator.did self.commonEmbeds.avatar
          description := rec.recDescription, creator := rec.creator } }
  else if rec.type = bskyEmbedFeed then
    { self with
      type := bskyEmbedFeed
      commonEmbeds :=
        { self.commonEmbeds with
          name := rec.displayName, avatar := rec.avatar, description := rec.description
          creator := rec.creator } }
  else
    { self with type := unknownType }

/-- The media sub-dispatch of a quote-with-media embed (main.go lines
785-801, 823-839, 919-935): images / external / video from `m`, with the
video owner DID taken from `ownerDID`; anything else is unknown. -/
def dispatchMedia (m : mediaData) (ownerDID : String) (self : ownData) : ownData :=
  if m.type = bskyEmbedImages then
    { self with type := bskyEmbedImages, images := m.images }
  else if m.type = bskyEmbedExternal then
    { self with type := bskyEmbedExternal, external := m.external }
  else if m.type = bskyEmbedVideo then
    { self with
      type := bskyEmbedVideo
      videoCID := m.cid
      videoDID := ownerDID
      aspectRatio := m.aspectRatio
      thumbnail := m.thumbnail
      isVideo := true }
  else
    { self with type := unknownType }

/-- The nested-embed dispatch inside a text-quote with embeds, main.go
lines 808-869: images / external / video / quote-with-media from the
quoted record's first embed; the video owner DID is the quoted record's
author (`recordAuthorDID`); anything else falls to the record-kind check. -/
def dispatchNested (theEmbed : nestedEmbed) (recordAuthorDID : String)
    (self : ownData) : ownData :=
  if theEmbed.own.type = bskyEmbedImages then
    { self with type := bskyEmbedImages, images := theEmbed.own.images }
  else if theEmbed.own.type = bskyEmbedExternal then
    { self with type := bskyEmbedExternal, external := theEmbed.own.external }
  else if theEmbed.own.type = bskyEmbedVideo then
    { self with
      type := bskyEmbedVideo
      videoCID := theEmbed.own.cid
      videoDID := recordAuthorDID
      aspectRatio := theEmbed.own.aspectRatio
      thumbnail := theEmbed.own.thumbnail
      isVideo := true }
  else if theEmbed.own.type = bskyEmbedQuote then
    dispatchMedia theEmbed.media recordAuthorDID self
  else
    dispatchNestedRecordKind theEmbed.record self

/-- The `bskyEmbedText` branch of the dispatch, main.go lines 802-899:
use the quoted record's first nested embed when present, else check the
record kind. -/
def dispatchTextEmbed (rec : embedRecord) (self : ownData) : ownData :=
  match rec.embeds with
  | theEmbed :: _ => dispatchNested theEmbed rec.author.did self
  | [] => dispatchRecordKind rec self

/-- The untagged-post branch of the dispatch, main.go lines 900-969:
inspect the parent's embed when the post is a reply (one level only),
otherwise unknown. -/
def dispatchParent (parentOpt : Option apiPost) (self : ownData) : ownData :=
  match parentOpt with
  | some parent =>
    if parent.embed.type = bskyEmbedImages then
      { self with type := bskyEmbedImages, images := parent.embed.images }
    else if parent.embed.type = bskyEmbedExternal then
      { self with type := bskyEmbedExternal, external := parent.embed.external }
    else if parent.embed.type = bskyEmbedVideo then
      { self with
        type := bskyEmbedVideo
        videoCID := parent.embed.cid
        videoDID := parent.author.did
        aspectRatio := parent.embed.aspectRatio
        thumbnail := parent.embed.thumbnail
        isVideo := true }
    else if parent.embed.type = bskyEmbedQuote then
      dispatchMedia parent.embed.media parent.author.did self
    else if parent.embed.type = bskyEmbedText then
      dispatchRecordKind parent.embed.record self
    else
      { self with type := unknownType }
  | none =>
    { self with type := unknownType }

/-- The embed dispatch switch of `getPost`, main.go lines 766-970. -/
def dispatchEmbed (thread : apiThread) (self : ownData) : ownData :=
  if thread.post.embed.type = bskyEmbedImages then
    { self with type := bskyEmbedImages, images := thread.post.embed.images }
  else if thread.post.embed.type = bskyEmbedExternal then
    { self with type := bskyEmbedExternal, external := thread.post.embed.external }
  else if thread.post.embed.type = bskyEmbedVideo then
    { self with
      type := bskyEmbedVideo
      videoCID := thread.post.embed.cid
      videoDID := thread.post.author.did
      aspectRatio := thread.post.embed.aspectRatio
      thumbnail := thread.post.embed.thumbnail
      isVideo := true }
  else if thread.post.embed.type = bskyEmbedQuote then
    -- main.go lines 783-801: VideoDID is the OUTER post author's DID here
    dispatchMedia thread.post.embed.media thread.post.author.did self
  else if thread.post.embed.type = bskyEmbedText then
    dispatchTextEmbed thread.post.embed.record self
  else
    dispatchParent thread.parent self

/-- The normalized record: `initSelf` followed by the dispatch switch. -/
def buildSelf (thread : apiThread) (aka : List String) : ownData :=
  dispatchEmbed thread (initSelf thread aka)

/-- Digit-sequence value for `goAtoi`: `none` if any character is not a
decimal digit. -/
def decDigits (cs : List Char) : Option Nat :=
  cs.foldl
    (fun acc c =>
      match acc with
      | none => none
      | some n => if c.isDigit then some (n * 10 + (c.toNat - 48)) else none)
    (some 0)

/-- Go's `strconv.Atoi`: optional sign, then one or more decimal digits;
errors on anything else and on values outside the 64-bit int range. -/
def goAtoi (s : String) : Option Int :=
  let cs := s.data
  let signed : Bool × List Char :=
    match cs with
    | '-' :: rest => (true, rest)
    | '+' :: rest => (false, rest)
    | _ => (false, cs)
  match signed with
  | (neg, ds) =>
    if ds.isEmpty then none
    else
      match decDigits ds with
      | none => none
      | some n =>
        let v : Int := if neg then -(n : Int) else (n : Int)
        if v < -(2 ^ 63) ∨ (2 ^ 63) ≤ v then none else some v

/-- The parts of a `net/url.Parse` result used by `getPost`: `Host` and
`Path` (the path never includes the query or fragment). -/
structure goURL where
  host : String
  path : String
deriving Repr, DecidableEq

/-- One `service` entry of a PLC directory document (`plcDirectory` in
main.go). -/
structure plcService where
  id : String
  type : String
  endpoint : String
deriving Repr, DecidableEq

/-- `plcDirectory` in main.go: `alsoKnownAs` plus service entries. -/
structure plcDirectory where
  aka : List String
  service : List plcService
deriving Repr, DecidableEq

/-- Creator display-name fallback applied inside the list/pack/feed
post-processing branches (main.go lines 975-977 etc.). -/
def creatorFallback (c : commonEmbedsData) : commonEmbedsData :=
  if c.creator.displayName = "" then
    { c with creator := { c.creator with displayName := c.creator.handle } }
  else c

/-- The kind post-processing switch of `getPost`, main.go lines 972-1040.
`pnStr` is the `photoNum` path value (empty when absent), `parseRes` the
result of `url.Parse` on the external URI (`none` = parse error), and
`plcVid` the PLC directory document fetched for the video owner DID.
An `Except.error` is the `errorPage` message that aborts the request; the
`String` in the pair is `mediaMsg`. -/
def postProcessKind (self : ownData) (pnStr : String) (parseRes : Option goURL)
    (plcVid : plcDirectory) : Except String (ownData × String) :=
  if self.type = bskyEmbedList then
    let ce := creatorFallback self.commonEmbeds
    let self := { self with commonEmbeds := ce }
    if ce.purpose = modList then
      .ok ({ self with description := self.description ++ "\n\n" ++ ce.name ++
              "\n🚫 A moderation list by " ++ ce.creator.displayName ++ " (@" ++
              ce.creator.handle ++ ")\n\n" ++ ce.description }, "")
    else if ce.purpose = curateList then
      .ok ({ self with description := self.description ++ "\n\n" ++ ce.name ++
              "\n👥 A curator list by " ++ ce.creator.displayName ++ " (@" ++
              ce.creator.handle ++ ")\n\n" ++ ce.description }, "")
    else
      .ok (self, "")
  else if self.type = bskyEmbedPack then
    let ce := creatorFallback self.commonEmbeds
    .ok ({ self with
            commonEmbeds := ce
            description := self.description ++ "\n\n" ++ ce.name ++
              "\n📦 A starter pack by " ++ ce.creator.displayName ++ " (@" ++
              ce.creator.handle ++ ")\n\n" ++ ce.description }, "")
  else if self.type = bskyEmbedFeed then
    let ce := creatorFallback self.commonEmbeds
    .ok ({ self with
            commonEmbeds := ce
            description := self.description ++ "\n\n" ++ ce.name ++
              "\n📡 A feed by " ++ ce.creator.displayName ++ " (@" ++
              ce.creator.handle ++ ")\n\n" ++ ce.description }, "")
  else if self.type = bskyEmbedExternal then
    match parseRes with
    | none =>
      -- parse error: assume it is not a gif, then take the non-gif branch
      .ok ({ self with
              isGif := false
              description := self.description ++ "\n\n" ++ self.external.title ++
                "\n" ++ self.external.description }, "")
    | some u =>
      if u.host = "media.tenor.com" then
        .ok ({ self with
                isGif := true
                external := { self.external with
                  uri := "https://media.tenor.com" ++ u.path } }, "")
      else
        .ok ({ self with
                isGif := false
                description := self.description ++ "\n\n" ++ self.external.title ++
                  "\n" ++ self.external.description }, "")
  else if self.type = bskyEmbedImages then
    if pnStr = "" then .ok (self, "")
    else
      match goAtoi pnStr with
      | none => .error "getPost: Invalid photo number"
      | some pn0 =>
        let pn : Int := if pn0 < 1 then 1 else pn0
        let imgLen := self.images.length
        if imgLen > 1 ∧ pn ≤ (imgLen : Int) then
          -- in this branch 1 ≤ pn ≤ imgLen, so the index is in range
          .ok ({ self with images := [self.images.getD (pn - 1).toNat ⟨"", "", zeroAR⟩] },
               "Photo " ++ toString pn ++ " of " ++ toString imgLen)
        else
          .ok (self, "")
  else if self.type = bskyEmbedVideo then
    match plcVid.service.find?
        (fun k => k.id == "#atproto_pds" && k.type == "AtprotoPersonalDataServer") with
    | some k => .ok ({ self with pds := k.endpoint }, "")
    | none => .ok (self, "")
  else
    .ok (self, "")

/-- The quote section string of main.go lines 1051-1055 / 1062-1066, with
the display-name fallback applied at the point of formatting. -/
def quoteSection (a : apiAuthor) (text : String) : String :=
  let dn := if a.displayName = "" then a.handle else a.displayName
  "📝 Quoting " ++ dn ++ " (@" ++ a.handle ++ "):\n" ++ text

/-- The reply section string of main.go lines 1074-1078. -/
def replySection (a : apiAuthor) (text : String) : String :=
  let dn := if a.displayName = "" then a.handle else a.displayName
  "💬 Replying to " ++ dn ++ " (@" ++ a.handle ++ "):\n" ++ text

/-- Quote description appending, main.go lines 1044-1067. -/
def appendQuote (thread : apiThread) (self : ownData) : ownData :=
  let emb := thread.post.embed
  if emb.type = bskyEmbedText then
    if emb.record.type = bskyEmbedTextQuote then
      let d := if self.description = "" then self.description else self.description ++ "\n\n"
      { self with description := d ++ quoteSection emb.record.author emb.record.valueText }
    else self
  else if emb.type = bskyEmbedQuote then
    let d := if self.description = "" then self.description else self.description ++ "\n\n"
    { self with
      description := d ++ quoteSection emb.record.record.author emb.record.record.valueText }
  else self

/-- Reply description appending, main.go lines 1069-1079. -/
def appendReply (thread : apiThread) (self : ownData) : ownData :=
  match thread.parent with
  | none => self
  | some par =>
    let d := if self.description = "" then self.description else self.description ++ "\n\n"
    { self with description := d ++ replySection par.author par.record.text }

/-- The `getPost` normalization pipeline: initial fields + embed dispatch,
kind post-processing, then quote/reply description appending. -/
def getPostModel (thread : apiThread) (aka : List String) (pnStr : String)
    (parseRes : Option goURL) (plcVid : plcDirectory) : Except String (ownData × String) :=
  match postProcessKind (buildSelf thread aka) pnStr parseRes plcVid with
  | .error e => .error e
  | .ok (self1, msg) => .ok (appendReply thread (appendQuote thread self1), msg)

/-- The three handle-resolution strategies, in the order `resolveHandle`
tries them. -/
inductive resolveStrategy
  | api
  | dns
  | wellKnown
deriving Repr, DecidableEq

/-- Outcomes of the external calls the resolution strategies make:
`apiResult` is the decoded DID body when the directory API call fully
succeeds (request, 2xx status and decode), `dnsRecords` the TXT answer
list, `wellKnownBody` the well-known response body capped to 32 bytes. -/
structure resolveEnv where
  apiResult : Except Unit String
  dnsRecords : Except Unit (List String)
  wellKnownBody : Except Unit String
deriving Repr

/-- `resolveHandleAPI`, main.go lines 320-349: soft-fails on any network,
status or decode error, and on a body without the `did:` marker. -/
def resolveHandleAPI (env : resolveEnv) (handle : String) : String × Bool :=
  match env.apiResult with
  | .error _ => (handle, false)
  | .ok did => if goHasPrefix did "did:" then (did, true) else (handle, false)

/-- `resolveHandleDNS`, main.go lines 351-364: accepts a `did=`-prefixed
first TXT record, stripping the marker. -/
def resolveHandleDNS (env : resolveEnv) (handle : String) : String × Bool :=
  match env.dnsRecords with
  | .error _ => (handle, false)
  | .ok records =>
    match records with
    | r :: _ => if goHasPrefix r "did=" then (goTrimPfx r "did=", true) else (handle, false)
    | [] => (handle, false)

/-- `resolveHandleHTTP`, main.go lines 366-398: accepts a capped body that
starts with `did:`. -/
def resolveHandleHTTP (env : resolveEnv) (handle : String) : String × Bool :=
  match env.wellKnownBody with
  | .error _ => (handle, false)
  | .ok body => if goHasPrefix body "did:" then (body, true) else (handle, false)

/-- `resolveHandle`, main.go lines 401-419, instrumented with the list of
strategies attempted (each strategy appears exactly when its network call
is issued). -/
def resolveHandleT (env : resolveEnv) (handle : String) : String × List resolveStrategy :=
  let (did, ok) := resolveHandleAPI env handle
  if ok then (did, [.api])
  else
    let (did, ok) := resolveHandleDNS env handle
    if ok then (did, [.api, .dns])
    else
      let (did, ok) := resolveHandleHTTP env handle
      if ok then (did, [.api, .dns, .wellKnown])
      else (handle, [.api, .dns, .wellKnown])

/-- `resolveHandle`'s result, forgetting the instrumentation. -/
def resolveHandle (env : resolveEnv) (handle : String) : String :=
  (resolveHandleT env handle).1

/-- The resolution step of `getPost`, main.go lines 701-704: resolution is
invoked only when the input does not carry the `did:plc` marker. -/
def getPostResolve (env : resolveEnv) (profileID : String) : String × List resolveStrategy :=
  if goHasPrefix profileID "did:plc" then (profileID, [])
  else resolveHandleT env profileID

/-- Result of `genMosaic` (main.go lines 1147-1189): an error page, a
redirect, or an ffmpeg invocation with its argument list. -/
inductive mosaicResult
  | errorResult (msg : String)
  | redirect (url : String)
  | invoke (args : List String)
deriving Repr, DecidableEq

/-- Two's-complement wrap into the 64-bit signed range, modelling Go's
`int` overflow behaviour on a 64-bit platform. -/
def wrap64 (n : Int) : Int :=
  (n + 2 ^ 63) % 2 ^ 64 - 2 ^ 63

/-- `genMosaic`, main.go lines 1147-1189. Go's `int` arithmetic is
modelled as `Int` with each accumulating addition wrapped to the 64-bit
signed range (`avgWidth += int(k.AspectRatio.Width)` wraps on overflow)
and truncated division (`Int.tdiv`); the division cannot overflow since
the divisor is at least 2. -/
def genMosaic (images : apiImages) : mosaicResult :=
  match images with
  | [] => .errorResult "genMosaic: No images"
  | [img] => .redirect img.fullSize
  | _ =>
    let args := images.foldl (fun a k => a ++ ["-i", k.fullSize]) []
    let sumWidth : Int := images.foldl (fun a k => wrap64 (a + k.aspectRatio.width)) 0
    let avgWidth : Int := sumWidth.tdiv (images.length : Int)
    let fc1 := (List.range images.length).foldl
      (fun acc i => acc ++ "[" ++ toString i ++ ":v]scale=" ++ toString avgWidth ++
        ":-2[m" ++ toString i ++ "];") ""
    let fc2 := (List.range images.length).foldl
      (fun acc i => acc ++ "[m" ++ toString i ++ "]") fc1
    let filterComplex := fc2 ++ "vstack=inputs=" ++ toString images.length
    .invoke (args ++ ["-filter_complex", filterComplex, "-f", "image2pipe",
      "-c:v", "mjpeg", "pipe:1"])

/-- All discriminant payload fields of `ownData` are zero-valued (the state
of `selfData` right before the dispatch switch). -/
def payloadsZero (d : ownData) : Prop :=
  d.images = [] ∧ d.external = zeroExternal ∧ d.videoCID = "" ∧ d.videoDID = "" ∧
  d.thumbnail = "" ∧ d.aspectRatio = zeroAR ∧ d.isVideo = false ∧ d.isGif = false ∧
  d.commonEmbeds = zeroCommon

/-- The exclusivity invariant on a normalized record: the kind is one of
the seven recognized kinds, and every payload field belonging to a
different kind is zero-valued. -/
def exclusiveEmbed (d : ownData) : Prop :=
  (d.type = bskyEmbedImages ∨ d.type = bskyEmbedExternal ∨ d.type = bskyEmbedVideo ∨
   d.type = bskyEmbedList ∨ d.type = bskyEmbedFeed ∨ d.type = bskyEmbedPack ∨
   d.type = unknownType) ∧
  (d.type ≠ bskyEmbedImages → d.images = []) ∧
  (d.type ≠ bskyEmbedExternal → d.external = zeroExternal ∧ d.isGif = false) ∧
  (d.type ≠ bskyEmbedVideo →
    d.videoCID = "" ∧ d.videoDID = "" ∧ d.thumbnail = "" ∧ d.aspectRatio = zeroAR ∧
    d.isVideo = false) ∧
  (d.type ≠ bskyEmbedList ∧ d.type ≠ bskyEmbedFeed ∧ d.type ≠ bskyEmbedPack →
    d.commonEmbeds = zeroCommon)

/-- Zero value of `mediaData` (Go zero struct). -/
def zeroMedia : mediaData := ⟨"", [], zeroExternal, "", "", zeroAR⟩

/-- Zero value of `quotedInnerRecord` (Go zero struct). -/
def zeroQuotedInner : quotedInnerRecord := ⟨"", zeroAuthor, "", ""⟩

/-- Zero value of `embedRecord` (Go zero struct). -/
def zeroEmbedRecord : embedRecord :=
  ⟨"", "", zeroQuotedInner, "", zeroAuthor, [], "", "", "", "", "", zeroAuthor⟩

/-- Zero value of `postEmbed` (Go zero struct). -/
def zeroPostEmbed : postEmbed := ⟨"", zeroMedia, zeroExternal, zeroEmbedRecord, [], "", "", zeroAR⟩

/-- Zero value of `apiPost` (Go zero struct). -/
def zeroPost : apiPost := ⟨zeroAuthor, ⟨"", ""⟩, zeroPostEmbed, 0, 0, 0, 0⟩

/-- Empty PLC directory document (the `resolvePLC` failure value). -/
def emptyPLC : plcDirectory := ⟨[], []⟩

/-- A sample outer post author. -/
def sampleAuthor : apiAuthor := ⟨"did:plc:outer", "outer.test", "Outer", ""⟩

/-- A sample author for the nested quoted record. -/
def nestedAuthor : apiAuthor := ⟨"did:plc:nested", "nested.test", "Nested", ""⟩

/-- A sample thread whose embed is a quote-with-media wrapping a video,
with distinct outer and nested quoted-record authors. -/
def c2Thread : apiThread :=
  { post :=
      { zeroPost with
        author := sampleAuthor
        embed :=
          { zeroPostEmbed with
            type := bskyEmbedQuote
            media := { zeroMedia with type := bskyEmbedVideo, cid := "vidcid123" }
            record :=
              { zeroEmbedRecord with
                record := { zeroQuotedInner with author := nestedAuthor } } } }
    parent := none }

/-- A sample image with a given URL and width. -/
def mkImage (url : String) (w : Int) : apiImage := ⟨url, "", ⟨w, 100⟩⟩

/-- Five concrete images. -/
def fiveImages : apiImages :=
  [mkImage "u1" 100, mkImage "u2" 200, mkImage "u3" 300, mkImage "u4" 400, mkImage "u5" 500]

/-- A normalized record of kind Images holding `fiveImages`. -/
def imgSelf5 : ownData :=
  { (initSelf ⟨zeroPost, none⟩ []) with type := bskyEmbedImages, images := fiveImages }

/-- A normalized record of kind Images holding a single image. -/
def imgSelf1 : ownData :=
  { (initSelf ⟨zeroPost, none⟩ []) with type := bskyEmbedImages, images := [mkImage "u1" 100] }

/-- A sample parent post carrying an image embed. -/
def c9Parent : apiPost :=
  { zeroPost with
    embed := { zeroPostEmbed with type := bskyEmbedImages, images := [mkImage "p1" 10] } }

/-- A sample reply thread: untagged child post, parent with an image embed. -/
def c9Thread : apiThread := ⟨zeroPost, some c9Parent⟩

/-- Environment where the directory API succeeds. -/
def env1 : resolveEnv := ⟨.ok "did:plc:x", .error (), .error ()⟩

/-- Environment where the API fails and DNS answers a did= record. -/
def env2 : resolveEnv := ⟨.error (), .ok ["did=did:plc:y"], .error ()⟩

/-- Environment where only the well-known HTTPS lookup succeeds. -/
def env3 : resolveEnv := ⟨.error (), .error (), .ok "did:web:z"⟩

/-- Environment where every resolution strategy fails. -/
def env4 : resolveEnv := ⟨.error (), .error (), .error ()⟩

/-- A normalized record of kind External pointing at the fixed GIF host. -/
def extSelf : ownData :=
  { (initSelf ⟨zeroPost, none⟩ []) with
    type := bskyEmbedExternal
    external := ⟨"https://media.tenor.com/abc.gif?hh=280", "Tenor", "gif", ""⟩ }

/-- A sample parent post for the description-composition witness. -/
def c6Parent : apiPost :=
  { zeroPost with
    author := ⟨"did:plc:par", "par.test", "Parent", ""⟩
    record := ⟨"parent text", ""⟩ }

/-- A sample thread that is both a quote (with video media) and a reply. -/
def c6Thread : apiThread :=
  { post :=
      { zeroPost with
        author := sampleAuthor
        record := ⟨"main text", ""⟩
        embed :=
          { zeroPostEmbed with
            type := bskyEmbedQuote
            media := { zeroMedia with type := bskyEmbedVideo, cid := "vidcid123" }
            record :=
              { zeroEmbedRecord with
                record :=
                  { zeroQuotedInner with
                    author := nestedAuthor
                    valueText := "quoted text" } } } }
    parent := some c6Parent }

lemma initSelf_payloadsZero (thread : apiThread) (aka : List String) :
    payloadsZero (initSelf thread aka) := by
  unfold payloadsZero initSelf
  repeat' constructor

lemma dispatchMedia_exclusive (m : mediaData) (ownerDID : String) (self : ownData)
    (h : payloadsZero self) : exclusiveEmbed (dispatchMedia m ownerDID self) := by
  obtain ⟨h1, h2, h3, h4, h5, h6, h7, h8, h9⟩ := h
  unfold dispatchMedia exclusiveEmbed
  repeat' split
  all_goals simp_all [bskyEmbedImages, bskyEmbedExternal, bskyEmbedVideo, bskyEmbedList,
    bskyEmbedFeed, bskyEmbedPack, unknownType]

lemma dispatchRecordKind_exclusive (rec : embedRecord) (self : ownData)
    (h : payloadsZero self) : exclusiveEmbed (dispatchRecordKind rec self) := by
  obtain ⟨h1, h2, h3, h4, h5, h6, h7, h8, h9⟩ := h
  unfold dispatchRecordKind exclusiveEmbed
  repeat' split
  all_goals simp_all [bskyEmbedImages, bskyEmbedExternal, bskyEmbedVideo, bskyEmbedList,
    bskyEmbedFeed, bskyEmbedPack, unknownType]

lemma dispatchNestedRecordKind_exclusive (rec : nestedEmbedRecord) (self : ownData)
    (h : payloadsZero self) : exclusiveEmbed (dispatchNestedRecordKind rec self) := by
  obtain ⟨h1, h2, h3, h4, h5, h6, h7, h8, h9⟩ := h
  unfold dispatchNestedRecordKind exclusiveEmbed
  repeat' split
  all_goals simp_all [bskyEmbedImages, bskyEmbedExternal, bskyEmbedVideo, bskyEmbedList,
    bskyEmbedFeed, bskyEmbedPack, unknownType]

lemma dispatchNested_exclusive (theEmbed : nestedEmbed) (recordAuthorDID : String)
    (self : ownData) (h : payloadsZero self) :
    exclusiveEmbed (dispatchNested theEmbed recordAuthorDID self) := by
  unfold dispatchNested
  repeat' split
  any_goals exact dispatchMedia_exclusive _ _ _ h
  any_goals exact dispatchNestedRecordKind_exclusive _ _ h
  all_goals {
    obtain ⟨h1, h2, h3, h4, h5, h6, h7, h8, h9⟩ := h
    unfold exclusiveEmbed
    simp_all [bskyEmbedImages, bskyEmbedExternal, bskyEmbedVideo, bskyEmbedList,
      bskyEmbedFeed, bskyEmbedPack, unknownType] }

lemma dispatchTextEmbed_exclusive (rec : embedRecord) (self : ownData)
    (h : payloadsZero self) : exclusiveEmbed (dispatchTextEmbed rec self) := by
  unfold dispatchTextEmbed
  split
  · exact dispatchNested_exclusive _ _ _ h
  · exact dispatchRecordKind_exclusive _ _ h

lemma dispatchParent_exclusive (parentOpt : Option apiPost) (self : ownData)
    (h : payloadsZero self) : exclusiveEmbed (dispatchParent parentOpt self) := by
  unfold dispatchParent
  repeat' split
  any_goals exact dispatchMedia_exclusive _ _ _ h
  any_goals exact dispatchRecordKind_exclusive _ _ h
  all_goals {
    obtain ⟨h1, h2, h3, h4, h5, h6, h7, h8, h9⟩ := h
    unfold exclusiveEmbed
    simp_all [bskyEmbedImages, bskyEmbedExternal, bskyEmbedVideo, bskyEmbedList,
      bskyEmbedFeed, bskyEmbedPack, unknownType] }

lemma dispatchEmbed_exclusive (thread : apiThread) (self : ownData)
    (h : payloadsZero self) : exclusiveEmbed (dispatchEmbed thread self) := by
  unfold dispatchEmbed
  repeat' split
  any_goals exact dispatchMedia_exclusive _ _ _ h
  any_goals exact dispatchTextEmbed_exclusive _ _ h
  any_goals exact dispatchParent_exclusive _ _ h
  all_goals {
    obtain ⟨h1, h2, h3, h4, h5, h6, h7, h8, h9⟩ := h
    unfold exclusiveEmbed
    simp_all [bskyEmbedImages, bskyEmbedExternal, bskyEmbedVideo, bskyEmbedList,
      bskyEmbedFeed, bskyEmbedPack, unknownType] }

/-- C1: for every raw thread, the embed normalization yields a canonical
record with exactly one populated discriminant — whichever kind is
selected, all payload fields belonging to the other kinds are zero-valued. -/
theorem c1_normalize_exclusive (thread : apiThread) (aka : List String) :
    exclusiveEmbed (buildSelf thread aka) :=
  dispatchEmbed_exclusive thread (initSelf thread aka) (initSelf_payloadsZero thread aka)

/-- C2 counterexample: for a quote-with-media embed wrapping a video, the
normalizer sets VideoDID to the OUTER post author's DID, not the nested
quoted record's author DID as the claim states. -/
theorem c2_counterexample :
    c2Thread.post.embed.type = bskyEmbedQuote ∧
    c2Thread.post.embed.media.type = bskyEmbedVideo ∧
    c2Thread.post.embed.record.record.author.did = "did:plc:nested" ∧
    c2Thread.post.author.did = "did:plc:outer" ∧
    (buildSelf c2Thread []).videoDID = "did:plc:outer" ∧
    (buildSelf c2Thread []).videoDID ≠ c2Thread.post.embed.record.record.author.did := by
  refine ⟨rfl, rfl, rfl, rfl, ?_, ?_⟩ <;> decide

/-- C2 (amended): for a quote-with-media embed whose nested media is a
video, the canonical video owner identifier is the outer post author's
DID — the same choice as the plain-video case. -/
theorem c2_quote_video_owner (thread : apiThread) (aka : List String)
    (hq : thread.post.embed.type = bskyEmbedQuote)
    (hv : thread.post.embed.media.type = bskyEmbedVideo) :
    (buildSelf thread aka).type = bskyEmbedVideo ∧
    (buildSelf thread aka).videoDID = thread.post.author.did ∧
    (buildSelf thread aka).videoCID = thread.post.embed.media.cid := by
  simp [buildSelf, dispatchEmbed, dispatchMedia, hq, hv, bskyEmbedImages, bskyEmbedExternal,
    bskyEmbedVideo, bskyEmbedQuote]

/-- Witness for `c2_quote_video_owner` at the concrete sample thread. -/
theorem c2_quote_video_owner_witness :
    (buildSelf c2Thread []).type = bskyEmbedVideo ∧
    (buildSelf c2Thread []).videoDID = c2Thread.post.author.did ∧
    (buildSelf c2Thread []).videoCID = c2Thread.post.embed.media.cid :=
  c2_quote_video_owner c2Thread [] rfl rfl

/-- C9: a post with no recognized embed tag recurses into the parent's
embed when a parent exists — a reply whose parent has an image embed
yields kind=Images with the image list sourced from the parent — and an
untagged post with no parent yields kind=Unknown. -/
theorem c9_parent_recursion (thread : apiThread) (aka : List String)
    (h1 : thread.post.embed.type ≠ bskyEmbedImages)
    (h2 : thread.post.embed.type ≠ bskyEmbedExternal)
    (h3 : thread.post.embed.type ≠ bskyEmbedVideo)
    (h4 : thread.post.embed.type ≠ bskyEmbedQuote)
    (h5 : thread.post.embed.type ≠ bskyEmbedText) :
    (∀ parent, thread.parent = some parent → parent.embed.type = bskyEmbedImages →
      (buildSelf thread aka).type = bskyEmbedImages ∧
      (buildSelf thread aka).images = parent.embed.images) ∧
    (thread.parent = none → (buildSelf thread aka).type = unknownType) := by
  constructor
  · intro parent hp himg
    simp [buildSelf, dispatchEmbed, dispatchParent, h1, h2, h3, h4, h5, hp, himg]
  · intro hp
    simp [buildSelf, dispatchEmbed, dispatchParent, h1, h2, h3, h4, h5, hp]

/-- Witness for `c9_parent_recursion` at the concrete sample thread. -/
theorem c9_parent_recursion_witness :
    (buildSelf c9Thread []).type = bskyEmbedImages ∧
    (buildSelf c9Thread []).images = c9Parent.embed.images :=
  (c9_parent_recursion c9Thread [] (by decide) (by decide) (by decide) (by decide)
    (by decide)).1 c9Parent rfl rfl

/-- C4: an input that already carries the recognized durable-identifier
marker skips resolution entirely — no resolution strategy is attempted and
the identifier used afterwards is the input unchanged. -/
theorem c4_skip_resolution (env : resolveEnv) (profileID : String)
    (h : goHasPrefix profileID "did:plc" = true) :
    getPostResolve env profileID = (profileID, []) := by
  simp [getPostResolve, h]

/-- Witness for `c4_skip_resolution` at a concrete DID. -/
theorem c4_skip_resolution_witness :
    getPostResolve ⟨.error (), .error (), .error ()⟩ "did:plc:abcd" = ("did:plc:abcd", []) :=
  c4_skip_resolution _ _ (by decide)

lemma resolveHandleAPI_false (env : resolveEnv) (handle : String)
    (h : (resolveHandleAPI env handle).2 = false) :
    resolveHandleAPI env handle = (handle, false) := by
  unfold resolveHandleAPI at h ⊢
  cases henv : env.apiResult with
  | error e => simp
  | ok did =>
    simp only [henv] at h ⊢
    by_cases hd : goHasPrefix did "did:" <;> simp_all

lemma resolveHandleDNS_false (env : resolveEnv) (handle : String)
    (h : (resolveHandleDNS env handle).2 = false) :
    resolveHandleDNS env handle = (handle, false) := by
  unfold resolveHandleDNS at h ⊢
  cases henv : env.dnsRecords with
  | error e => simp
  | ok records =>
    simp only [henv] at h ⊢
    cases records with
    | nil => simp
    | cons r rest =>
      by_cases hr : goHasPrefix r "did=" <;> simp_all

lemma resolveHandleHTTP_false (env : resolveEnv) (handle : String)
    (h : (resolveHandleHTTP env handle).2 = false) :
    resolveHandleHTTP env handle = (handle, false) := by
  unfold resolveHandleHTTP at h ⊢
  cases henv : env.wellKnownBody with
  | error e => simp
  | ok body =>
    simp only [henv] at h ⊢
    by_cases hb : goHasPrefix body "did:" <;> simp_all

/-- C5: handle resolution tries API, DNS, then well-known HTTPS in strict
order, short-circuiting on the first success; each failure falls through
soft, and exhausting all three returns the input unchanged. When the API
fails and DNS answers a did=-prefixed first record, the result is the
DNS-derived value with the marker stripped. -/
theorem c5_fallback_chain (env : resolveEnv) (handle : String) :
    (∀ did, env.apiResult = .ok did → goHasPrefix did "did:" = true →
      resolveHandleT env handle = (did, [.api])) ∧
    ((resolveHandleAPI env handle).2 = false →
      ∀ r rest, env.dnsRecords = .ok (r :: rest) → goHasPrefix r "did=" = true →
      resolveHandleT env handle = (goTrimPfx r "did=", [.api, .dns])) ∧
    ((resolveHandleAPI env handle).2 = false → (resolveHandleDNS env handle).2 = false →
      ∀ body, env.wellKnownBody = .ok body → goHasPrefix body "did:" = true →
      resolveHandleT env handle = (body, [.api, .dns, .wellKnown])) ∧
    ((resolveHandleAPI env handle).2 = false → (resolveHandleDNS env handle).2 = false →
      (resolveHandleHTTP env handle).2 = false →
      resolveHandleT env handle = (handle, [.api, .dns, .wellKnown])) := by
  refine ⟨?_, ?_, ?_, ?_⟩
  · intro did hapi hpre
    have hA : resolveHandleAPI env handle = (did, true) := by
      simp [resolveHandleAPI, hapi, hpre]
    simp [resolveHandleT, hA]
  · intro hfail r rest hdns hpre
    have hA := resolveHandleAPI_false env handle hfail
    have hD : resolveHandleDNS env handle = (goTrimPfx r "did=", true) := by
      simp [resolveHandleDNS, hdns, hpre]
    simp [resolveHandleT, hA, hD]
  · intro hfail hdfail body hhttp hpre
    have hA := resolveHandleAPI_false env handle hfail
    have hD := resolveHandleDNS_false env handle hdfail
    have hH : resolveHandleHTTP env handle = (body, true) := by
      simp [resolveHandleHTTP, hhttp, hpre]
    simp [resolveHandleT, hA, hD, hH]
  · intro hfail hdfail hhfail
    have hA := resolveHandleAPI_false env handle hfail
    have hD := resolveHandleDNS_false env handle hdfail
    have hH := resolveHandleHTTP_false env handle hhfail
    simp [resolveHandleT, hA, hD, hH]

/-- Witness for `c5_fallback_chain` at concrete environments for each of
the four outcomes. -/
theorem c5_fallback_chain_witness :
    resolveHandleT env1 "alice.test" = ("did:plc:x", [.api]) ∧
    resolveHandleT env2 "alice.test" = ("did:plc:y", [.api, .dns]) ∧
    resolveHandleT env3 "alice.test" = ("did:web:z", [.api, .dns, .wellKnown]) ∧
    resolveHandleT env4 "alice.test" = ("alice.test", [.api, .dns, .wellKnown]) := by
  refine ⟨(c5_fallback_chain env1 "alice.test").1 "did:plc:x" rfl (by decide), ?_, ?_, ?_⟩
  · exact (by decide : goTrimPfx "did=did:plc:y" "did=" = "did:plc:y") ▸
      (c5_fallback_chain env2 "alice.test").2.1 (by decide) "did=did:plc:y" [] rfl (by decide)
  · exact (c5_fallback_chain env3 "alice.test").2.2.1 (by decide) (by decide) "did:web:z"
      rfl (by decide)
  · exact (c5_fallback_chain env4 "alice.test").2.2.2 (by decide) (by decide) (by decide)

/-- C10: when the post has exactly one image, a supplied photo-index
parameter has no effect — even a valid parsed index leaves the
one-element image list unchanged and produces no side message, because
narrowing requires strictly more than one image. -/
theorem c10_single_image_no_narrow (self : ownData) (img : apiImage) (pnStr : String)
    (parseRes : Option goURL) (plcVid : plcDirectory) (n : Int)
    (htype : self.type = bskyEmbedImages)
    (himg : self.images = [img])
    (hparse : goAtoi pnStr = some n) :
    postProcessKind self pnStr parseRes plcVid = .ok (self, "") := by
  by_cases hpn : pnStr = ""
  · simp [postProcessKind, htype, hpn, bskyEmbedImages, bskyEmbedExternal, bskyEmbedList,
      bskyEmbedFeed, bskyEmbedPack]
  · simp [postProcessKind, htype, hpn, hparse, himg, bskyEmbedImages, bskyEmbedExternal,
      bskyEmbedList, bskyEmbedFeed, bskyEmbedPack]

/-- Witness for `c10_single_image_no_narrow` at a concrete single-image
record and index 1. -/
theorem c10_single_image_no_narrow_witness :
    postProcessKind imgSelf1 "1" none emptyPLC = .ok (imgSelf1, "") :=
  c10_single_image_no_narrow imgSelf1 (mkImage "u1" 100) "1" none emptyPLC 1 rfl rfl (by decide)

/-- C3 counterexample: with five images and index "0" the list IS narrowed
(to photo 1) rather than left untouched; with one image and index "1"
nothing is narrowed and no message is produced; an unparsable index
aborts with an error page rather than leaving the list untouched. -/
theorem c3_counterexample :
    (postProcessKind imgSelf5 "0" none emptyPLC =
      .ok ({ imgSelf5 with images := [mkImage "u1" 100] }, "Photo 1 of 5")) ∧
    ({ imgSelf5 with images := [mkImage "u1" 100] } : ownData).images ≠ imgSelf5.images ∧
    (postProcessKind imgSelf1 "1" none emptyPLC = .ok (imgSelf1, "")) ∧
    (postProcessKind imgSelf5 "x" none emptyPLC = .error "getPost: Invalid photo number") := by
  refine ⟨rfl, by decide, rfl, rfl⟩

/-- C3 (amended): with a non-empty photo index parameter, an unparsable
index aborts with an error page; a parsed index is clamped up to 1, and
when the image count exceeds 1 and the clamped index is at most the
count, the list narrows to the single 0-based entry index-1 with a
"Photo i of N" message; otherwise (count at most 1, or index beyond the
count) the list is left untouched with no message. -/
theorem c3_photo_narrowing (self : ownData) (pnStr : String) (parseRes : Option goURL)
    (plcVid : plcDirectory)
    (htype : self.type = bskyEmbedImages) (hne : pnStr ≠ "") :
    (goAtoi pnStr = none →
      postProcessKind self pnStr parseRes plcVid = .error "getPost: Invalid photo number") ∧
    (∀ pn0 : Int, goAtoi pnStr = some pn0 →
      (1 < self.images.length ∧ (if pn0 < 1 then 1 else pn0) ≤ (self.images.length : Int) →
        postProcessKind self pnStr parseRes plcVid =
          .ok ({ self with images :=
                  [self.images.getD ((if pn0 < 1 then 1 else pn0) - 1).toNat ⟨"", "", zeroAR⟩] },
               "Photo " ++ toString (if pn0 < 1 then 1 else pn0) ++ " of " ++
                 toString self.images.length)) ∧
      (¬(1 < self.images.length ∧ (if pn0 < 1 then 1 else pn0) ≤ (self.images.length : Int)) →
        postProcessKind self pnStr parseRes plcVid = .ok (self, ""))) := by
  refine ⟨?_, ?_⟩
  · intro hnone
    simp [postProcessKind, htype, hne, hnone, bskyEmbedImages, bskyEmbedExternal,
      bskyEmbedList, bskyEmbedFeed, bskyEmbedPack]
  · intro pn0 hsome
    constructor
    · intro hin
      simp [postProcessKind, htype, hne, hsome, hin, bskyEmbedImages, bskyEmbedExternal,
        bskyEmbedList, bskyEmbedFeed, bskyEmbedPack]
    · intro hout
      simp [postProcessKind, htype, hne, hsome, hout, bskyEmbedImages, bskyEmbedExternal,
        bskyEmbedList, bskyEmbedFeed, bskyEmbedPack]

/-- Witness for `c3_photo_narrowing`: five images with index "3" narrow to
the original 0-based entry 2. -/
theorem c3_photo_narrowing_witness :
    postProcessKind imgSelf5 "3" none emptyPLC =
      .ok ({ imgSelf5 with images := [mkImage "u3" 300] }, "Photo 3 of 5") :=
  (((c3_photo_narrowing imgSelf5 "3" none emptyPLC rfl (by decide)).2 3 (by decide)).1
    (by decide)).trans (by rfl)

/-- C8: for kind External, a parsed URI whose host is the fixed GIF host
sets isGif and rewrites the URI to the fixed host plus the parsed path
(no query); any other host — or a parse failure — leaves isGif false and
appends the external title and description to the running description. -/
theorem c8_external_gif (self : ownData) (pnStr : String) (parseRes : Option goURL)
    (plcVid : plcDirectory) (htype : self.type = bskyEmbedExternal) :
    (∀ u, parseRes = some u → u.host = "media.tenor.com" →
      postProcessKind self pnStr parseRes plcVid =
        .ok ({ self with
                isGif := true
                external := { self.external with
                  uri := "https://media.tenor.com" ++ u.path } }, "")) ∧
    (∀ u, parseRes = some u → u.host ≠ "media.tenor.com" →
      postProcessKind self pnStr parseRes plcVid =
        .ok ({ self with
                isGif := false
                description := self.description ++ "\n\n" ++ self.external.title ++ "\n" ++
                  self.external.description }, "")) ∧
    (parseRes = none →
      postProcessKind self pnStr parseRes plcVid =
        .ok ({ self with
                isGif := false
                description := self.description ++ "\n\n" ++ self.external.title ++ "\n" ++
                  self.external.description }, "")) := by
  refine ⟨?_, ?_, ?_⟩
  · intro u hp hh
    simp [postProcessKind, htype, hp, hh, bskyEmbedExternal, bskyEmbedList,
      bskyEmbedFeed, bskyEmbedPack]
  · intro u hp hh
    simp [postProcessKind, htype, hp, hh, bskyEmbedExternal, bskyEmbedList,
      bskyEmbedFeed, bskyEmbedPack]
  · intro hp
    simp [postProcessKind, htype, hp, bskyEmbedExternal, bskyEmbedList,
      bskyEmbedFeed, bskyEmbedPack]

/-- Witness for `c8_external_gif` at a concrete Tenor URL. -/
theorem c8_external_gif_witness :
    postProcessKind extSelf "" (some ⟨"media.tenor.com", "/abc.gif"⟩) emptyPLC =
      .ok ({ extSelf with
              isGif := true
              external := { extSelf.external with
                uri := "https://media.tenor.com/abc.gif" } }, "") :=
  ((c8_external_gif extSelf "" (some ⟨"media.tenor.com", "/abc.gif"⟩) emptyPLC rfl).1
    ⟨"media.tenor.com", "/abc.gif"⟩ rfl rfl).trans (by rfl)

lemma quoteSection_ne_empty (a : apiAuthor) (t : String) : quoteSection a t ≠ "" := by
  unfold quoteSection
  intro hc
  have hl := congrArg String.length hc
  simp [String.length_append] at hl
  exact absurd hl.1.1.1.1.1 (by decide)

lemma append_ne_empty_of_right (s t : String) (h : t ≠ "") : s ++ t ≠ "" := by
  intro hc
  have hl := congrArg String.length hc
  rw [String.length_append] at hl
  simp at hl
  apply h
  cases t with
  | mk data =>
    have : data.length = 0 := hl.2
    simp_all

/-- C6: in the composed description of a post that is both a quote and a
reply, the quote section precedes the reply section; each section is
preceded by exactly one blank line, inserted only when the text before it
is non-empty (the reply separator is always present since the quote
section is non-empty), and display names fall back to handles at the
point of formatting. Both quote forms are covered: quote-with-media and
text-quote. -/
theorem c6_compose (thread : apiThread) (par : apiPost) (aka : List String) (pnStr : String)
    (parseRes : Option goURL) (plcVid : plcDirectory) (self1 : ownData) (msg : String)
    (hok : postProcessKind (buildSelf thread aka) pnStr parseRes plcVid = .ok (self1, msg))
    (hp : thread.parent = some par) :
    (thread.post.embed.type = bskyEmbedQuote →
      getPostModel thread aka pnStr parseRes plcVid = .ok
        ({ self1 with description :=
            ((if self1.description = "" then "" else self1.description ++ "\n\n") ++
              quoteSection thread.post.embed.record.record.author
                thread.post.embed.record.record.valueText ++ "\n\n" ++
              replySection par.author par.record.text) }, msg)) ∧
    (thread.post.embed.type = bskyEmbedText →
      thread.post.embed.record.type = bskyEmbedTextQuote →
      getPostModel thread aka pnStr parseRes plcVid = .ok
        ({ self1 with description :=
            ((if self1.description = "" then "" else self1.description ++ "\n\n") ++
              quoteSection thread.post.embed.record.author
                thread.post.embed.record.valueText ++ "\n\n" ++
              replySection par.author par.record.text) }, msg)) := by
  constructor
  · intro hq
    have hd : (appendQuote thread self1).description =
        ((if self1.description = "" then "" else self1.description ++ "\n\n") ++
          quoteSection thread.post.embed.record.record.author
            thread.post.embed.record.record.valueText) := by
      simp [appendQuote, hq, bskyEmbedText, bskyEmbedQuote]
      split <;> simp_all
    have hne : (appendQuote thread self1).description ≠ "" := by
      rw [hd]
      exact append_ne_empty_of_right _ _ (quoteSection_ne_empty _ _)
    have hrest : appendQuote thread self1 =
        { self1 with description := (appendQuote thread self1).description } := by
      simp [appendQuote, hq, bskyEmbedText, bskyEmbedQuote]
    unfold getPostModel
    rw [hok]
    unfold appendReply
    rw [hp]
    simp only [hne, if_neg]
    rw [hrest, hd]
    simp
  · intro ht hqt
    have hd : (appendQuote thread self1).description =
        ((if self1.description = "" then "" else self1.description ++ "\n\n") ++
          quoteSection thread.post.embed.record.author
            thread.post.embed.record.valueText) := by
      simp [appendQuote, ht, hqt, bskyEmbedText, bskyEmbedQuote]
      split <;> simp_all
    have hne : (appendQuote thread self1).description ≠ "" := by
      rw [hd]
      exact append_ne_empty_of_right _ _ (quoteSection_ne_empty _ _)
    have hrest : appendQuote thread self1 =
        { self1 with description := (appendQuote thread self1).description } := by
      simp [appendQuote, ht, hqt, bskyEmbedText, bskyEmbedQuote]
    unfold getPostModel
    rw [hok]
    unfold appendReply
    rw [hp]
    simp only [hne, if_neg]
    rw [hrest, hd]
    simp

/-- Witness for `c6_compose` at a concrete quote-and-reply thread. -/
theorem c6_compose_witness :
    getPostModel c6Thread [] "" none emptyPLC = .ok
      ({ buildSelf c6Thread [] with description :=
          "main text\n\n📝 Quoting Nested (@nested.test):\nquoted text\n\n💬 Replying to Parent (@par.test):\nparent text" }, "") :=
  ((c6_compose c6Thread c6Parent [] "" none emptyPLC (buildSelf c6Thread []) "" (by decide)
    rfl).1 rfl).trans (by decide)

lemma wrap64_eq_self (n : Int) (hlo : -(2 ^ 63) ≤ n) (hhi : n < 2 ^ 63) :
    wrap64 n = n := by
  unfold wrap64
  rw [Int.emod_eq_of_lt (by omega) (by omega)]
  omega

set_option maxRecDepth 10000 in
/-- C7 counterexample: at two images of equal declared width 2^62 (a
representable 64-bit value) the accumulated width sum wraps, so the
invocation scales to -2^62, not to the common width w as the claim
states for every w. -/
theorem c7_counterexample :
    genMosaic [⟨"u1", "", ⟨2 ^ 62, 1⟩⟩, ⟨"u2", "", ⟨2 ^ 62, 1⟩⟩] =
      .invoke ["-i", "u1", "-i", "u2", "-filter_complex",
        "[0:v]scale=-4611686018427387904:-2[m0];[1:v]scale=-4611686018427387904:-2[m1];[m0][m1]vstack=inputs=2",
        "-f", "image2pipe", "-c:v", "mjpeg", "pipe:1"] ∧
    (-4611686018427387904 : Int) ≠ 2 ^ 62 := by
  exact ⟨by decide, by decide⟩

/-- C7 (amended): the mosaic compositor fails on zero images, redirects
to the single image's URL on one image, and for two images of equal
declared width w whose 64-bit width sum does not overflow
(-2^62 ≤ w < 2^62) builds an ffmpeg invocation scaling both inputs to
width w (the average) and stacking them vertically in original order;
at larger widths the accumulated sum wraps. -/
theorem c7_mosaic :
    (genMosaic [] = .errorResult "genMosaic: No images") ∧
    (∀ img : apiImage, genMosaic [img] = .redirect img.fullSize) ∧
    (∀ (u1 a1 u2 a2 : String) (w h1 h2 : Int), -(2 ^ 62) ≤ w → w < 2 ^ 62 →
      genMosaic [⟨u1, a1, ⟨w, h1⟩⟩, ⟨u2, a2, ⟨w, h2⟩⟩] =
        .invoke ["-i", u1, "-i", u2, "-filter_complex",
          "[0:v]scale=" ++ toString w ++ ":-2[m0];[1:v]scale=" ++ toString w ++
            ":-2[m1];[m0][m1]vstack=inputs=2",
          "-f", "image2pipe", "-c:v", "mjpeg", "pipe:1"]) := by
  refine ⟨rfl, fun img => rfl, ?_⟩
  intro u1 a1 u2 a2 w h1 h2 hlo hhi
  have e1 : wrap64 w = w := wrap64_eq_self w (by omega) (by omega)
  have e2 : wrap64 (w + w) = w + w := wrap64_eq_self _ (by omega) (by omega)
  have havg : (wrap64 (wrap64 w + w)).tdiv 2 = w := by
    rw [e1, e2, ← two_mul]
    exact Int.mul_tdiv_cancel_left w (by decide)
  have h0 : toString (0 : Nat) = "0" := rfl
  have h1s : toString (1 : Nat) = "1" := rfl
  have h2s : toString (2 : Nat) = "2" := rfl
  simp [genMosaic, havg, h0, h1s, h2s, List.range_succ, ← String.append_assoc]
  apply String.ext
  simp [String.data_append]

/-- Witness for `c7_mosaic` at two concrete width-640 images. -/
theorem c7_mosaic_witness :
    genMosaic [⟨"u1", "", ⟨640, 480⟩⟩, ⟨"u2", "", ⟨640, 360⟩⟩] =
      .invoke ["-i", "u1", "-i", "u2", "-filter_complex",
        "[0:v]scale=640:-2[m0];[1:v]scale=640:-2[m1];[m0][m1]vstack=inputs=2",
        "-f", "image2pipe", "-c:v", "mjpeg", "pipe:1"] :=
  (c7_mosaic.2.2 "u1" "" "u2" "" 640 480 360 (by decide) (by decide)).trans (by decide)
